import Mathlib

/-!
# Verification of the r_klipp 3D-printer control core

Shallow embedding, in Lean 4, of the parts of the `r_klipp` repository that
the specification's claims are about, together with theorems settling those
claims.

Modelling conventions used throughout this file:

* Rust byte slices (`&[u8]`) become `List Nat` with every element below 256.
* `u16`/`u32` arithmetic is carried out on `Nat` with explicit `% 2 ^ 16` /
  `% 2 ^ 32` masks where the Rust code can wrap; `i32` values become `Int`
  with an explicit two's-complement wrap where the Rust code casts or uses
  `wrapping_add` / `wrapping_sub`.
* `f32` values become `ℚ` (exact rational arithmetic).  Where the source
  calls `sqrtf` we use `ratSqrt` (exact on perfect squares of rationals);
  every concrete input evaluated below is chosen so that each square root
  taken is exact, hence agrees with the `f32` computation, and the general
  theorems proved below do not depend on the value of any inexact root.
* Fallible Rust functions return `Except`; Rust operations that can panic
  (slice indexing, `unwrap`) are modelled by explicitly guarded accesses
  that surface a dedicated "panicked" result when out of contract.
-/

namespace RKlipp

/-! ## Wire protocol: CRC-16-CCITT (crates/klipper-proto/src/crc.rs) -/

/-- One shift round of CRC-16-CCITT with polynomial 0x1021: the body of the
inner `while j < 8` loop of `crc16_ccitt`, on a `u16` accumulator. -/
def crcRound (crc : Nat) : Nat :=
  if crc &&& 0x8000 ≠ 0 then ((crc <<< 1) ^^^ 0x1021) % 2 ^ 16
  else (crc <<< 1) % 2 ^ 16

/-- Eight shift rounds, i.e. the inner loop of `crc16_ccitt` for one byte. -/
def crcRound8 (crc : Nat) : Nat :=
  crcRound (crcRound (crcRound (crcRound (crcRound (crcRound (crcRound (crcRound crc)))))))

/-- CRC-16-CCITT over a whole byte list: seed 0xFFFF, `crc ^= byte << 8`,
then eight polynomial shift rounds per byte, exactly as in
`crc16_ccitt` of `crates/klipper-proto/src/crc.rs`. -/
def crc16Fold (data : List Nat) : Nat :=
  data.foldl (fun crc b => crcRound8 ((crc ^^^ (b <<< 8)) % 2 ^ 16)) 0xFFFF

/-- `crc16_ccitt(data, len)` processes the first `len` bytes of `data`.
The Rust loop indexes `data[i]` for `i < len` and would panic if
`len > data.len()`; every call site below is proved in bounds, and the
parser embedding guards this contract explicitly. -/
def crc16_ccitt (data : List Nat) (len : Nat) : Nat :=
  crc16Fold (data.take len)

/-! ## Wire protocol: typed messages (crates/klipper-proto/src/commands.rs) -/

/-- `CommandQueueStep`: `interval_ticks: u32`, `count: u16`, `add: i16`. -/
structure CommandQueueStep where
  interval_ticks : Nat
  count : Nat
  add : Int
  deriving DecidableEq, Repr

/-- `Command<'a>` from `commands.rs`; borrowed byte slices become byte lists. -/
inductive Command where
  | Identify (dict_version : List Nat)
  | GetConfig
  | GetStatus
  | QueueStep (qs : CommandQueueStep)
  | SetDigitalOut (pin : Nat) (value : Nat)
  | SetPwmOut (pin : Nat) (value : Nat)
  | Unknown (id : Nat) (bytes : List Nat)
  deriving DecidableEq, Repr

/-- `Response<'a>` from `commands.rs`. -/
inductive Response where
  | Identify (is_config_valid : Bool) (version : List Nat) (mcu_name : List Nat)
  | Status
  | Config
  | Unknown
  deriving DecidableEq, Repr

/-- `Message<'a>` from `commands.rs`. -/
inductive Message where
  | Command (c : Command)
  | Response (r : Response)
  deriving DecidableEq, Repr

/-- The crate-wide `Error` enum of `crates/klipper-proto/src/lib.rs`. -/
inductive ProtoError where
  | IncompleteFrame
  | InvalidSync
  | InvalidCrc
  | InvalidPayload
  | BufferTooSmall
  deriving DecidableEq, Repr

/-! ## Wire protocol: zero-copy streaming Parser (crates/klipper-proto/src/parser.rs) -/

/-- `SYNC_BYTE` of `parser.rs`: 0x1d. -/
def SYNC_BYTE : Nat := 0x1d

/-- Index of the first occurrence of `SYNC_BYTE`, i.e.
`input.iter().position(|&b| b == SYNC_BYTE)`. -/
def firstSync : List Nat → Option Nat
  | [] => none
  | b :: rest => if b = SYNC_BYTE then some 0 else (firstSync rest).map (· + 1)

/-- The `nom` streaming `u8` combinator: one byte, or failure on empty input. -/
def nomU8 : List Nat → Except Unit (List Nat × Nat)
  | [] => .error ()
  | b :: rest => .ok (rest, b)

/-- The `nom` streaming `take(n)` combinator. -/
def nomTake (n : Nat) (i : List Nat) : Except Unit (List Nat × List Nat) :=
  if i.length < n then .error () else .ok (i.drop n, i.take n)

/-- The `nom` streaming `be_u16` combinator. -/
def nomBeU16 (i : List Nat) : Except Unit (List Nat × Nat) :=
  match i with
  | b0 :: b1 :: rest => .ok (rest, 256 * b0 + b1)
  | _ => .error ()

/-- The `nom` streaming `be_u32` combinator. -/
def nomBeU32 (i : List Nat) : Except Unit (List Nat × Nat) :=
  match i with
  | b0 :: b1 :: b2 :: b3 :: rest =>
      .ok (rest, 256 ^ 3 * b0 + 256 ^ 2 * b1 + 256 * b2 + b3)
  | _ => .error ()

/-- The `nom` streaming big-endian `i16` combinator: two bytes read as a
two's-complement 16-bit signed integer. -/
def nomBeI16 (i : List Nat) : Except Unit (List Nat × Int) :=
  match i with
  | b0 :: b1 :: rest =>
      let v := 256 * b0 + b1
      .ok (rest, if v < 2 ^ 15 then (v : Int) else (v : Int) - 2 ^ 16)
  | _ => .error ()

/-- `parse_command` of `parser.rs`: dispatch on the first payload byte and
decode the typed command with `nom` combinators.  Any `nom` failure is an
`Except.error` (the caller maps it to `InvalidPayload`). -/
def parse_command (input : List Nat) : Except Unit (List Nat × Command) := do
  let (i, command_id) ← nomU8 input
  match command_id with
  | 0x01 => do
      let (rest, s) ← nomTake (input.length - 1) i
      .ok (rest, .Identify s)
  | 0x02 => .ok (i, .GetConfig)
  | 0x03 => .ok (i, .GetStatus)
  | 0x10 => do
      let (i1, interval) ← nomBeU32 i
      let (i2, count) ← nomBeU16 i1
      let (i3, add) ← nomBeI16 i2
      .ok (i3, .QueueStep ⟨interval, count, add⟩)
  | 0x21 => do
      let (i1, pin) ← nomU8 i
      let (i2, value) ← nomU8 i1
      .ok (i2, .SetDigitalOut pin value)
  | 0x20 => do
      let (i1, pin) ← nomU8 i
      let (i2, value) ← nomBeU16 i1
      .ok (i2, .SetPwmOut pin value)
  | _ => .ok ([], .Unknown command_id i)

/-- Result of one `Parser::parse` call.  `message m consumed` models
`Ok(Some((m, consumed)))`, `incomplete` models `Ok(None)`, `err e discard`
models `Err((e, discard))`, and `panicked` marks a Rust panic (an out of
bounds slice index or a failed `unwrap`), which theorem `C9` below proves
unreachable. -/
inductive ParseOutcome where
  | message (m : Message) (consumed : Nat)
  | incomplete
  | err (e : ProtoError) (discard : Nat)
  | panicked
  deriving DecidableEq, Repr

/-- `Parser::parse` of `crates/klipper-proto/src/parser.rs`, line by line.
Note that after slicing `buffer = &input[sync_pos..]` the code reads the
frame length from `buffer[0]`, which IS the sync byte just located, so
`msg_len` is always `0x1d`; the embedding reproduces this faithfully
(`buffer.headD 0`).  Slice expressions that can panic are guarded and
surface `ParseOutcome.panicked`. -/
def parse (input : List Nat) : ParseOutcome :=
  match firstSync input with
  | none => .err .InvalidSync input.length
  | some sync_pos =>
    let buffer := input.drop sync_pos
    let original_len := buffer.length
    if original_len < 4 then .incomplete
    else
      let msg_len := buffer.headD 0
      if original_len < msg_len then .incomplete
      else
        -- frame_with_len = &buffer[..msg_len]  (in bounds: msg_len ≤ original_len)
        let frame_with_len := buffer.take msg_len
        -- payload_and_crc = &frame_with_len[1..] : panics if frame is empty
        if frame_with_len.length < 1 then .panicked
        else
          let payload_and_crc := frame_with_len.drop 1
          -- payload_and_crc[..len - 2] and [len - 2..]: usize underflow / bounds
          if payload_and_crc.length < 2 then .panicked
          else
            let payload := payload_and_crc.take (payload_and_crc.length - 2)
            let crcBytes := payload_and_crc.drop (payload_and_crc.length - 2)
            match crcBytes with
            | [hi, lo] =>
              let received_crc := 256 * hi + lo
              -- crc16_ccitt(frame_with_len, msg_len - 2) indexes data[0..msg_len-2)
              if frame_with_len.length < msg_len - 2 then .panicked
              else
                let calculated_crc := crc16_ccitt frame_with_len (msg_len - 2)
                if received_crc ≠ calculated_crc then .err .InvalidCrc (sync_pos + 1)
                else
                  match parse_command payload with
                  | .ok (_rem, command) => .message (.Command command) (sync_pos + msg_len + 1)
                  | .error _ => .err .InvalidPayload (sync_pos + 1)
            | _ => .panicked

end RKlipp

namespace RKlipp

/-- If `firstSync` finds the sync byte at index `p`, then `p` is in bounds and
the byte at index `p` is `SYNC_BYTE`. -/
theorem firstSync_some_spec :
    ∀ (l : List Nat) (p : Nat), firstSync l = some p →
      p < l.length ∧ l[p]? = some SYNC_BYTE := by
  intro l
  induction l with
  | nil => intro p h; simp [firstSync] at h
  | cons b rest ih =>
    intro p h
    by_cases hb : b = SYNC_BYTE
    · simp [firstSync, hb] at h
      subst h
      simp [hb]
    · simp [firstSync, hb] at h
      obtain ⟨q, hq, hpq⟩ := h
      obtain ⟨h1, h2⟩ := ih q hq
      subst hpq
      constructor
      · simpa using Nat.succ_lt_succ h1
      · simpa using h2

end RKlipp

namespace RKlipp

/-- C9: `Parser::parse` never panics on any input byte sequence: every slice
access and `unwrap` inside it is in bounds (the key fact being that the byte
at the located sync position is `0x1d = 29 ≥ 4`, so the frame slicing is
always in range once 29 bytes are buffered), and the result is always a
parsed message, `Incomplete`, or an error with a discard count.  The
zero-copy, no-allocation part of the claim is structural: the embedding
returns the payload fields as contiguous sublists (`take`/`drop`) of the
input, mirroring the borrowed `&[u8]` slices of the Rust code. -/
theorem C9_parse_never_panics (input : List Nat) : parse input ≠ .panicked := by
  cases hfs : firstSync input with
  | none => simp [parse, hfs]
  | some p =>
    obtain ⟨hp, hg⟩ := firstSync_some_spec input p hfs
    have hhd : (List.drop p input).headD 0 = 29 := by
      rw [List.headD_eq_head?, List.head?_drop, hg]; rfl
    simp only [parse, hfs, hhd, List.length_drop, List.length_take, List.drop_drop]
    split
    · simp
    · split
      · simp
      · rename_i hlen
        have hmin : 29 ⊓ (input.length - p) = 29 :=
          Nat.min_eq_left (Nat.le_of_not_lt hlen)
        simp only [hmin]
        norm_num
        have h2 : (List.drop 27 (List.take 29 (List.drop p input))).length = 2 := by
          simp [List.length_drop, List.length_take, hmin]
        obtain ⟨hi, lo, hcb⟩ := List.length_eq_two.mp h2
        rw [hcb]
        split
        · split
          · split <;> simp
          · simp
        · rename_i hne
          exact absurd rfl (hne hi lo)

/-- C2: evaluation of `Parser::parse` at the repository's own test frame.
`build_test_frame(1, 0x02, [])` of `protocol_parser_tests.rs` builds the
`GetConfig` frame `[0x1d, 0x04, 0x01, 0x02, 0x03, 0x2f]`: sync byte, then
`LEN = 4` counting the bytes after the LEN field through the end of the CRC,
then seq, command id, and the big-endian CRC-16 `0x032f` (first conjunct).
The test (and the claim) expect this complete frame to parse; the code
instead reads `LEN` from `buffer[0]`, which is the sync byte itself
(always `0x1d = 29`), so it keeps returning `Incomplete` while waiting for
29 buffered bytes (second conjunct). -/
theorem C2_parse_reads_len_at_sync_byte :
    crc16_ccitt [0x04, 0x01, 0x02] 3 = 0x032f ∧
      parse [0x1d, 0x04, 0x01, 0x02, 0x03, 0x2f] = .incomplete := by
  decide

end RKlipp

namespace RKlipp

/-! ## Wire protocol: host-side codec (crates/klipper-proto/src/codec.rs)

`KlipperCodec` serialises a `Message` with the `postcard` crate, frames it
as `SYNC | LEN | CRC8 | escaped-payload`, and decodes the same format.
`postcard` is a third-party crate (not part of this repository), so its
wire format is modelled here from its documented rules: `u8` is one byte,
`u16`/`u32` are LEB128 varints, signed integers are zigzag varints, byte
slices are a varint length followed by the raw bytes, `bool` is one byte
0/1, and an enum is the varint of its variant index followed by the
variant's fields in order. -/

/-- LEB128 varint: low seven bits first, continuation bit 0x80. -/
def varint (n : Nat) : List Nat :=
  if h : n < 128 then [n]
  else (n % 128 + 128) :: varint (n / 128)
  decreasing_by
    exact Nat.div_lt_self (Nat.lt_of_lt_of_le (by norm_num) (Nat.le_of_not_lt h)) (by norm_num)

/-- Zigzag encoding of a signed integer: 0, -1, 1, -2, ... become 0, 1, 2, 3, ... -/
def zigzag (z : Int) : Nat :=
  if 0 ≤ z then 2 * z.toNat else 2 * (-z).toNat - 1

/-- A byte slice: varint length followed by the raw bytes. -/
def serBytes (b : List Nat) : List Nat :=
  varint b.length ++ b

/-- `postcard` serialisation of `Command` (variant index, then fields). -/
def serCommand : Command → List Nat
  | .Identify d => 0 :: serBytes d
  | .GetConfig => [1]
  | .GetStatus => [2]
  | .QueueStep qs => 3 :: (varint qs.interval_ticks ++ varint qs.count ++ varint (zigzag qs.add))
  | .SetDigitalOut pin value => [4, pin, value]
  | .SetPwmOut pin value => 5 :: pin :: varint value
  | .Unknown id bytes => 6 :: id :: serBytes bytes

/-- `postcard` serialisation of `Response`. -/
def serResponse : Response → List Nat
  | .Identify b v m => 0 :: (if b then 1 else 0) :: (serBytes v ++ serBytes m)
  | .Status => [1]
  | .Config => [2]
  | .Unknown => [3]

/-- `postcard` serialisation of `Message`. -/
def serMessage : Message → List Nat
  | .Command c => 0 :: serCommand c
  | .Response r => 1 :: serResponse r

/-- Varint decoding, the inverse of `varint` on canonical encodings. -/
def deserVarint : List Nat → Option (Nat × List Nat)
  | [] => none
  | b :: rest =>
    if b < 128 then some (b, rest)
    else
      match deserVarint rest with
      | some (v, r) => some (b - 128 + 128 * v, r)
      | none => none

/-- Zigzag decoding. -/
def unzigzag (n : Nat) : Int :=
  if n % 2 = 0 then ((n / 2 : Nat) : Int) else -(((n + 1) / 2 : Nat) : Int)

/-- Byte-slice decoding: varint length, then that many raw bytes. -/
def deserBytes (l : List Nat) : Option (List Nat × List Nat) :=
  match deserVarint l with
  | some (n, r) => if r.length < n then none else some (r.take n, r.drop n)
  | none => none

/-- `postcard` deserialisation of `Command`. -/
def deserCommand (l : List Nat) : Option (Command × List Nat) :=
  match deserVarint l with
  | some (0, r) =>
      match deserBytes r with
      | some (d, r1) => some (.Identify d, r1)
      | none => none
  | some (1, r) => some (.GetConfig, r)
  | some (2, r) => some (.GetStatus, r)
  | some (3, r) =>
      match deserVarint r with
      | some (interval, r1) =>
        match deserVarint r1 with
        | some (count, r2) =>
          match deserVarint r2 with
          | some (addz, r3) => some (.QueueStep ⟨interval, count, unzigzag addz⟩, r3)
          | none => none
        | none => none
      | none => none
  | some (4, r) =>
      match r with
      | pin :: value :: r1 => some (.SetDigitalOut pin value, r1)
      | _ => none
  | some (5, r) =>
      match r with
      | pin :: r1 =>
        match deserVarint r1 with
        | some (value, r2) => some (.SetPwmOut pin value, r2)
        | none => none
      | [] => none
  | some (6, r) =>
      match r with
      | id :: r1 =>
        match deserBytes r1 with
        | some (bytes, r2) => some (.Unknown id bytes, r2)
        | none => none
      | [] => none
  | _ => none

/-- `postcard` deserialisation of `Response`. -/
def deserResponse (l : List Nat) : Option (Response × List Nat) :=
  match deserVarint l with
  | some (0, r) =>
      match r with
      | bb :: r1 =>
        if bb = 0 ∨ bb = 1 then
          match deserBytes r1 with
          | some (v, r2) =>
            match deserBytes r2 with
            | some (m, r3) => some (.Identify (bb = 1) v m, r3)
            | none => none
          | none => none
        else none
      | [] => none
  | some (1, r) => some (.Status, r)
  | some (2, r) => some (.Config, r)
  | some (3, r) => some (.Unknown, r)
  | _ => none

/-- `postcard` deserialisation of `Message` (`postcard::from_bytes` also
returns the value when trailing bytes remain, so the remainder is simply
carried along). -/
def deserMessage (l : List Nat) : Option (Message × List Nat) :=
  match deserVarint l with
  | some (0, r) =>
      match deserCommand r with
      | some (c, r1) => some (.Command c, r1)
      | none => none
  | some (1, r) =>
      match deserResponse r with
      | some (rr, r1) => some (.Response rr, r1)
      | none => none
  | _ => none

end RKlipp

namespace RKlipp

/-- One shift round of `crc8_atm`: polynomial 0x07 on a `u8` accumulator. -/
def crc8Round (crc : Nat) : Nat :=
  if crc &&& 0x80 ≠ 0 then ((crc <<< 1) ^^^ 0x07) % 256 else (crc <<< 1) % 256

/-- Eight shift rounds of `crc8_atm`, i.e. its inner `for _ in 0..8` loop. -/
def crc8Round8 (crc : Nat) : Nat :=
  crc8Round (crc8Round (crc8Round (crc8Round (crc8Round (crc8Round (crc8Round (crc8Round crc)))))))

/-- `KlipperCodec::crc8_atm`: seed 0, `crc ^= byte`, eight rounds per byte. -/
def crc8_atm (data : List Nat) : Nat :=
  data.foldl (fun crc byte => crc8Round8 ((crc ^^^ byte) % 256)) 0x00

/-- The codec's `SYNC_BYTE` (0x7e). -/
def CODEC_SYNC : Nat := 0x7e

/-- The codec's `ESCAPE_BYTE` (0x7d). -/
def ESCAPE_BYTE : Nat := 0x7d

/-- `MAX_FRAME_SIZE` of `codec.rs`. -/
def MAX_FRAME_SIZE : Nat := 256

/-- `KlipperCodec::escape`: any payload byte equal to the sync or escape
byte is replaced by `ESCAPE_BYTE` followed by `byte ^ 0x20`. -/
def escape : List Nat → List Nat
  | [] => []
  | b :: rest =>
    if b = CODEC_SYNC ∨ b = ESCAPE_BYTE then ESCAPE_BYTE :: (b ^^^ 0x20) :: escape rest
    else b :: escape rest

/-- The unescaping loop of `KlipperCodec::decode`: `ESCAPE_BYTE` followed by
`x` yields `x ^ 0x20`; a dangling escape byte is the `Error::Incomplete`
case (the crate's error enum spells it `IncompleteFrame`). -/
def unescape : List Nat → Except ProtoError (List Nat)
  | [] => .ok []
  | b :: rest =>
    if b = ESCAPE_BYTE then
      match rest with
      | [] => .error .IncompleteFrame
      | nb :: rest2 => (unescape rest2).map (fun tail => (nb ^^^ 0x20) :: tail)
    else (unescape rest).map (fun tail => b :: tail)

/-- Index of the first occurrence of byte `t`, i.e.
`src.iter().position(|&b| b == t)`. -/
def firstPos (t : Nat) : List Nat → Option Nat
  | [] => none
  | b :: rest => if b = t then some 0 else (firstPos t rest).map (· + 1)

/-- `KlipperCodec::encode`: postcard-serialise (`postcard::to_slice` into a
256-byte buffer, so an over-long serialisation is an error), CRC-8 over the
unescaped payload, emit `SYNC, placeholder, CRC`, append the escaped
payload, then patch the length byte (`frame_len = dst.len() - 1`, rejected
above 255). -/
def encode (item : Message) : Except ProtoError (List Nat) :=
  let serialized := serMessage item
  if serialized.length > MAX_FRAME_SIZE then .error .BufferTooSmall
  else
    let crc := crc8_atm serialized
    let framed := [CODEC_SYNC, 0, crc] ++ escape serialized
    let frame_len := framed.length - 1
    if frame_len > 255 then .error .BufferTooSmall
    else .ok (framed.set 1 frame_len)

/-- Result of one `KlipperCodec::decode` call on a buffered byte sequence:
`done m rest` models `Ok(Some(m))` with `rest` left in the buffer,
`needMore rest` models `Ok(None)`, `fail e` models `Err(e)`, and `panicked`
marks the `get_u8` calls running past the end of a frame shorter than three
bytes (unreachable for frames produced by `encode`). -/
inductive DecodeResult where
  | done (m : Message) (rest : List Nat)
  | needMore (rest : List Nat)
  | fail (e : ProtoError)
  | panicked
  deriving DecidableEq, Repr

/-- `KlipperCodec::decode`: scan to the sync byte, read the length byte,
wait for the full frame, split it off, unescape, check the CRC-8 and
postcard-deserialise (a `postcard` failure surfaces as `InvalidPayload`). -/
def decode (src : List Nat) : DecodeResult :=
  match firstPos CODEC_SYNC src with
  | none => .needMore []
  | some sync_pos =>
    let s := src.drop sync_pos
    if s.length < 3 then .needMore s
    else
      let frame_len := s.getD 1 0
      if s.length < 1 + frame_len then .needMore s
      else
        let frame_data := s.take (1 + frame_len)
        let rest := s.drop (1 + frame_len)
        match frame_data with
        | _sync :: _len :: crc :: escaped =>
          match unescape escaped with
          | .error e => .fail e
          | .ok payload =>
            if crc ≠ crc8_atm payload then .fail .InvalidCrc
            else
              match deserMessage payload with
              | some (message, _) => .done message rest
              | none => .fail .InvalidPayload
        | _ => .panicked

end RKlipp

namespace RKlipp

theorem deserVarint_varint (n : Nat) : ∀ rest, deserVarint (varint n ++ rest) = some (n, rest) := by
  induction n using Nat.strong_induction_on with
  | _ n ih =>
    intro rest
    by_cases h : n < 128
    · rw [varint]
      simp [h, deserVarint]
    · rw [varint]
      rw [dif_neg h]
      have hb : ¬ (n % 128 + 128 < 128) := by omega
      have hdiv : n / 128 < n :=
        Nat.div_lt_self (Nat.lt_of_lt_of_le (by norm_num) (Nat.le_of_not_lt h)) (by norm_num)
      have heq : n % 128 + 128 - 128 + 128 * (n / 128) = n := by omega
      simp [deserVarint, if_neg hb, ih (n / 128) hdiv, heq]
      omega

theorem unzigzag_zigzag (z : Int) : unzigzag (zigzag z) = z := by
  unfold zigzag unzigzag
  by_cases h : 0 ≤ z
  · simp only [if_pos h]
    have h2 : 2 * z.toNat % 2 = 0 := by omega
    rw [if_pos h2]
    omega
  · simp only [if_neg h]
    have h1 : 1 ≤ (-z).toNat := by omega
    have h2 : ¬ ((2 * (-z).toNat - 1) % 2 = 0) := by omega
    rw [if_neg h2]
    omega

theorem deserBytes_serBytes (b : List Nat) (rest : List Nat) :
    deserBytes (serBytes b ++ rest) = some (b, rest) := by
  unfold serBytes deserBytes
  rw [List.append_assoc, deserVarint_varint]
  have hlen : ¬ ((b ++ rest).length < b.length) := by
    simp [List.length_append]
  simp only [if_neg hlen]
  simp [List.take_left, List.drop_left]

end RKlipp

namespace RKlipp

theorem deserCommand_serCommand (c : Command) (rest : List Nat) :
    deserCommand (serCommand c ++ rest) = some (c, rest) := by
  cases c with
  | Identify d =>
      simp [serCommand, deserCommand, deserVarint, deserBytes_serBytes]
  | GetConfig => simp [serCommand, deserCommand, deserVarint]
  | GetStatus => simp [serCommand, deserCommand, deserVarint]
  | QueueStep qs =>
      simp [serCommand, deserCommand, deserVarint, List.append_assoc,
        deserVarint_varint, unzigzag_zigzag]
  | SetDigitalOut pin value => simp [serCommand, deserCommand, deserVarint]
  | SetPwmOut pin value =>
      simp [serCommand, deserCommand, deserVarint, deserVarint_varint]
  | Unknown id bytes =>
      simp [serCommand, deserCommand, deserVarint, deserBytes_serBytes]

theorem deserResponse_serResponse (r : Response) (rest : List Nat) :
    deserResponse (serResponse r ++ rest) = some (r, rest) := by
  cases r with
  | Identify b v m =>
      cases b <;>
        simp [serResponse, deserResponse, deserVarint, List.append_assoc, deserBytes_serBytes]
  | Status => simp [serResponse, deserResponse, deserVarint]
  | Config => simp [serResponse, deserResponse, deserVarint]
  | Unknown => simp [serResponse, deserResponse, deserVarint]

theorem deserMessage_serMessage (m : Message) (rest : List Nat) :
    deserMessage (serMessage m ++ rest) = some (m, rest) := by
  cases m with
  | Command c =>
      simp [serMessage, deserMessage, deserVarint, deserCommand_serCommand]
  | Response r =>
      simp [serMessage, deserMessage, deserVarint, deserResponse_serResponse]

theorem unescape_escape (p : List Nat) : unescape (escape p) = .ok p := by
  induction p with
  | nil => simp [escape, unescape]
  | cons b rest ih =>
    by_cases hb : b = CODEC_SYNC ∨ b = ESCAPE_BYTE
    · have hx : (b ^^^ 0x20) ^^^ 0x20 = b := by
        rw [Nat.xor_assoc]
        simp
      simp [escape, hb, unescape, ih, hx, Except.map]
    · have hb1 : b ≠ CODEC_SYNC := fun h => hb (Or.inl h)
      have hb2 : b ≠ ESCAPE_BYTE := fun h => hb (Or.inr h)
      rw [escape, if_neg hb, unescape.eq_def]
      simp only [if_neg hb2, ih]
      rfl

end RKlipp

namespace RKlipp

/-- All elements are bytes. -/
def wfBytes (l : List Nat) : Prop := ∀ b ∈ l, b < 256

/-- The numeric fields of a `Command` fit the Rust integer types they carry
(`u8`, `u16`, `u32`, `i16`, `&[u8]`): the representable commands. -/
def WfCommand : Command → Prop
  | .Identify d => wfBytes d
  | .GetConfig => True
  | .GetStatus => True
  | .QueueStep qs =>
      qs.interval_ticks < 2 ^ 32 ∧ qs.count < 2 ^ 16 ∧ -(2 ^ 15) ≤ qs.add ∧ qs.add < 2 ^ 15
  | .SetDigitalOut pin value => pin < 256 ∧ value < 256
  | .SetPwmOut pin value => pin < 256 ∧ value < 2 ^ 16
  | .Unknown id bytes => id < 256 ∧ wfBytes bytes

/-- The fields of a `Response` fit their Rust types. -/
def WfResponse : Response → Prop
  | .Identify _ v m => wfBytes v ∧ wfBytes m
  | _ => True

/-- The representable messages. -/
def WfMessage : Message → Prop
  | .Command c => WfCommand c
  | .Response r => WfResponse r

/-- C5: the codec round-trips: for every representable `Message` whose
postcard serialisation fits the 256-byte frame buffer and whose escaped
frame fits the one-byte length field, `encode` succeeds and `decode` of the
produced bytes returns exactly the original message, consuming the whole
frame. -/
theorem C5_decode_encode (m : Message) (_hwf : WfMessage m)
    (hser : (serMessage m).length ≤ MAX_FRAME_SIZE)
    (hesc : (escape (serMessage m)).length ≤ 253) :
    ∃ bytes, encode m = .ok bytes ∧ decode bytes = .done m [] := by
  have h1 : ¬ ((serMessage m).length > MAX_FRAME_SIZE) := Nat.not_lt.mpr hser
  have hfl : ([CODEC_SYNC, 0, crc8_atm (serMessage m)] ++ escape (serMessage m)).length - 1 =
      2 + (escape (serMessage m)).length := by
    simp [List.length_append]
    omega
  have h2 : ¬ (([CODEC_SYNC, 0, crc8_atm (serMessage m)] ++ escape (serMessage m)).length - 1 > 255) := by
    rw [hfl]; omega
  have h3 : ¬ (2 + (escape (serMessage m)).length > 255) := by omega
  have hbytes : encode m = .ok (CODEC_SYNC :: (2 + (escape (serMessage m)).length) ::
      crc8_atm (serMessage m) :: escape (serMessage m)) := by
    unfold encode
    rw [if_neg h1]
    simp only [hfl, if_neg h3]
    simp [List.cons_append]
  refine ⟨_, hbytes, ?_⟩
  have hfp : firstPos CODEC_SYNC (CODEC_SYNC :: (2 + (escape (serMessage m)).length) ::
      crc8_atm (serMessage m) :: escape (serMessage m)) = some 0 := by
    simp [firstPos]
  unfold decode
  rw [hfp]
  simp only [List.drop_zero]
  have hL : (CODEC_SYNC :: (2 + (escape (serMessage m)).length) ::
      crc8_atm (serMessage m) :: escape (serMessage m)).length =
      3 + (escape (serMessage m)).length := by
    simp
    omega
  rw [hL]
  rw [if_neg (by omega)]
  have hgd : (CODEC_SYNC :: (2 + (escape (serMessage m)).length) ::
      crc8_atm (serMessage m) :: escape (serMessage m)).getD 1 0 =
      2 + (escape (serMessage m)).length := by
    simp
  rw [hgd]
  rw [if_neg (by omega)]
  have htake : (CODEC_SYNC :: (2 + (escape (serMessage m)).length) ::
      crc8_atm (serMessage m) :: escape (serMessage m)).take
        (1 + (2 + (escape (serMessage m)).length)) =
      CODEC_SYNC :: (2 + (escape (serMessage m)).length) ::
      crc8_atm (serMessage m) :: escape (serMessage m) := by
    apply List.take_of_length_le
    rw [hL]
    omega
  have hdrop : (CODEC_SYNC :: (2 + (escape (serMessage m)).length) ::
      crc8_atm (serMessage m) :: escape (serMessage m)).drop
        (1 + (2 + (escape (serMessage m)).length)) = [] := by
    apply List.drop_eq_nil_of_le
    rw [hL]
    omega
  rw [htake, hdrop]
  simp only [unescape_escape]
  rw [if_neg (by simp)]
  have hdm : deserMessage (serMessage m) = some (m, []) := by
    have := deserMessage_serMessage m []
    simpa using this
  rw [hdm]

end RKlipp

namespace RKlipp

/-- Witness for C5 at the concrete message `GetConfig`. -/
theorem C5_decode_encode_witness :
    ∃ bytes, encode (.Command .GetConfig) = .ok bytes ∧
      decode bytes = .done (.Command .GetConfig) [] :=
  C5_decode_encode (.Command .GetConfig) trivial (by decide) (by decide)

end RKlipp

namespace RKlipp

/-! ## Safety supervisor (crates/klipper-mcu-firmware/src/safety.rs)

`embassy_time::Instant` is modelled as a microsecond tick count (`Nat`);
`Instant::now()` calls inside the Rust methods become explicit `now`
parameters.  `f32` temperatures and rates are `ℚ`. -/

/-- `SafetyError` of `safety.rs`. -/
inductive SafetyError where
  | ThermalRunaway (heater_id : Nat) (rate_of_change : ℚ)
  | TempTooLow (heater_id : Nat) (temp : ℚ)
  | TempTooHigh (heater_id : Nat) (temp : ℚ)
  | StepperDriverFault (driver_mask : Nat)
  | TaskStalled (task_id : Nat)
  deriving DecidableEq, Repr

/-- `ThermalMonitor`: per-heater limits and the state of the last check. -/
structure ThermalMonitor where
  max_rate_celsius_per_sec : ℚ
  min_temp_limit : ℚ
  max_temp_limit : ℚ
  last_temp : ℚ
  last_check_time : Nat
  deriving DecidableEq, Repr

/-- `ThermalMonitor::new`: limits from the arguments, `last_check_time`
zero so that the first rate check is skipped. -/
def ThermalMonitor.new (max_rate min_t max_t initial_temp : ℚ) : ThermalMonitor :=
  ⟨max_rate, min_t, max_t, initial_temp, 0⟩

/-- `ThermalMonitor::check`: range checks, then the thermal-runaway rate
check (skipped on the first call and for intervals of at most 100 ms), and
only then the state update.  Returns the result together with the updated
monitor (the `&mut self` after the call). -/
def ThermalMonitor.check (m : ThermalMonitor) (heater_id : Nat) (current_temp : ℚ)
    (now : Nat) : Except SafetyError Unit × ThermalMonitor :=
  if current_temp < m.min_temp_limit then
    (.error (.TempTooLow heater_id current_temp), m)
  else if current_temp > m.max_temp_limit then
    (.error (.TempTooHigh heater_id current_temp), m)
  else
    let delta_time_s : ℚ := ((now - m.last_check_time : Nat) : ℚ) / 1000000
    let rate_of_change := (current_temp - m.last_temp) / delta_time_s
    if m.last_check_time > 0 ∧ delta_time_s > 1 / 10 ∧
        rate_of_change > m.max_rate_celsius_per_sec then
      (.error (.ThermalRunaway heater_id rate_of_change), m)
    else
      (.ok (), { m with last_temp := current_temp, last_check_time := now })

/-- `SafetyMonitor` state: the thermal monitors, the emergency-stop flag,
and the per-task check-in times and deadlines (microseconds).  The owned
watchdog handle has no observable state here. -/
structure SafetyMonitor where
  thermal_monitors : List ThermalMonitor
  emergency_stop_active : Bool
  last_check_in : List Nat
  task_deadlines : List Nat
  deriving DecidableEq, Repr

/-- One call to a public `SafetyMonitor` method, with every internal
`Instant::now()` made explicit. -/
inductive SafetyOp where
  | checkThermalState (heater_id : Nat) (temp : ℚ) (now : Nat)
  | checkStepperFaults (fault_pin_states : Nat)
  | taskCheckIn (task_id : Nat) (now : Nat)
  | checkTaskStalls (now : Nat)
  | triggerEmergencyStop (reason : SafetyError)
  | feedWatchdog
  deriving DecidableEq, Repr

/-- `SafetyMonitor::trigger_emergency_stop`: `swap(true, SeqCst)`; the
compare-and-swap result only gates the log line. -/
def SafetyMonitor.trigger_emergency_stop (s : SafetyMonitor) (_reason : SafetyError) :
    SafetyMonitor :=
  { s with emergency_stop_active := true }

/-- `SafetyMonitor::is_emergency_stop_active`. -/
def SafetyMonitor.is_emergency_stop_active (s : SafetyMonitor) : Bool :=
  s.emergency_stop_active

/-- One step of the `SafetyMonitor` state machine: the body of each public
method of `safety.rs`. -/
def SafetyMonitor.step (s : SafetyMonitor) : SafetyOp → SafetyMonitor
  | .checkThermalState heater_id temp now =>
    match s.thermal_monitors.get? heater_id with
    | some monitor =>
      let (res, monitor2) := monitor.check heater_id temp now
      let s2 := { s with thermal_monitors := s.thermal_monitors.set heater_id monitor2 }
      match res with
      | .error e => s2.trigger_emergency_stop e
      | .ok _ => s2
    | none => s
  | .checkStepperFaults fault_pin_states =>
    if fault_pin_states ≠ 0 then
      s.trigger_emergency_stop (.StepperDriverFault fault_pin_states)
    else s
  | .taskCheckIn task_id now =>
    if task_id < s.last_check_in.length then
      { s with last_check_in := s.last_check_in.set task_id now }
    else s
  | .checkTaskStalls now =>
    if (List.range s.task_deadlines.length).any
        (fun i => now - s.last_check_in.getD i 0 > s.task_deadlines.getD i 0) then
      { s with emergency_stop_active := true }
    else s
  | .triggerEmergencyStop reason => s.trigger_emergency_stop reason
  | .feedWatchdog => s

end RKlipp

namespace RKlipp

/-- C4: every detected safety condition immediately sets the emergency-stop
flag, and no `SafetyMonitor` operation ever clears it: the flag is monotone
under every single operation and every sequence of operations (once
`is_emergency_stop_active` has returned `true` it stays `true`; the only
exit is a full reset, i.e. building a fresh monitor), a nonzero stepper
fault mask sets it, a failing thermal check sets it, a missed task deadline
sets it, and an explicit trigger sets it. -/
theorem C4_estop_set_and_never_cleared (s : SafetyMonitor) :
    (∀ op : SafetyOp, s.is_emergency_stop_active = true →
      (s.step op).is_emergency_stop_active = true) ∧
    (∀ ops : List SafetyOp, s.is_emergency_stop_active = true →
      (ops.foldl SafetyMonitor.step s).is_emergency_stop_active = true) ∧
    (∀ mask, mask ≠ 0 →
      (s.step (.checkStepperFaults mask)).is_emergency_stop_active = true) ∧
    (∀ heater_id temp now monitor e,
      s.thermal_monitors.get? heater_id = some monitor →
      (monitor.check heater_id temp now).1 = .error e →
      (s.step (.checkThermalState heater_id temp now)).is_emergency_stop_active = true) ∧
    (∀ now i, i < s.task_deadlines.length →
      now - s.last_check_in.getD i 0 > s.task_deadlines.getD i 0 →
      (s.step (.checkTaskStalls now)).is_emergency_stop_active = true) ∧
    (∀ reason,
      (s.step (.triggerEmergencyStop reason)).is_emergency_stop_active = true) := by
  have hmono : ∀ (t : SafetyMonitor) (op : SafetyOp), t.is_emergency_stop_active = true →
      (t.step op).is_emergency_stop_active = true := by
    intro t op h
    cases op with
    | checkThermalState heater_id temp now =>
      simp only [SafetyMonitor.step]
      cases t.thermal_monitors.get? heater_id with
      | none => exact h
      | some monitor =>
        simp only []
        cases (monitor.check heater_id temp now).1 with
        | error e => simp [SafetyMonitor.trigger_emergency_stop, SafetyMonitor.is_emergency_stop_active]
        | ok u => simpa [SafetyMonitor.is_emergency_stop_active] using h
    | checkStepperFaults mask =>
      simp only [SafetyMonitor.step]
      split
      · simp [SafetyMonitor.trigger_emergency_stop, SafetyMonitor.is_emergency_stop_active]
      · exact h
    | taskCheckIn task_id now =>
      simp only [SafetyMonitor.step]
      split
      · simpa [SafetyMonitor.is_emergency_stop_active] using h
      · exact h
    | checkTaskStalls now =>
      simp only [SafetyMonitor.step]
      split
      · simp [SafetyMonitor.is_emergency_stop_active]
      · exact h
    | triggerEmergencyStop reason =>
      simp [SafetyMonitor.step, SafetyMonitor.trigger_emergency_stop,
        SafetyMonitor.is_emergency_stop_active]
    | feedWatchdog => exact h
  refine ⟨hmono s, ?_, ?_, ?_, ?_, ?_⟩
  · intro ops
    induction ops generalizing s with
    | nil => intro h; exact h
    | cons op rest ih =>
      intro h
      exact ih (s.step op) (hmono s op h)
  · intro mask hmask
    simp [SafetyMonitor.step, hmask, SafetyMonitor.trigger_emergency_stop,
      SafetyMonitor.is_emergency_stop_active]
  · intro heater_id temp now monitor e hget hchk
    simp only [SafetyMonitor.step, hget]
    rcases hpair : monitor.check heater_id temp now with ⟨res, monitor2⟩
    have : res = .error e := by rw [hpair] at hchk; exact hchk
    subst this
    simp [SafetyMonitor.trigger_emergency_stop, SafetyMonitor.is_emergency_stop_active]
  · intro now i hi hcond
    have hany : (List.range s.task_deadlines.length).any
        (fun i => now - s.last_check_in.getD i 0 > s.task_deadlines.getD i 0) = true := by
      rw [List.any_eq_true]
      exact ⟨i, List.mem_range.mpr hi, by simpa using hcond⟩
    simp only [SafetyMonitor.step, hany, if_true, SafetyMonitor.is_emergency_stop_active]
  · intro reason
    simp [SafetyMonitor.step, SafetyMonitor.trigger_emergency_stop,
      SafetyMonitor.is_emergency_stop_active]

end RKlipp

namespace RKlipp

/-- Decidable equality for `Except`, used to evaluate the embedded fallible
operations on concrete inputs. -/
instance {e a : Type} [DecidableEq e] [DecidableEq a] : DecidableEq (Except e a) := fun x y =>
  match x, y with
  | .ok x, .ok y => decidable_of_iff (x = y) (by simp)
  | .ok _, .error _ => isFalse (fun h => Except.noConfusion h)
  | .error _, .ok _ => isFalse (fun h => Except.noConfusion h)
  | .error x, .error y => decidable_of_iff (x = y) (by simp)

/-- A one-heater safety monitor in the configuration of spec scenario 5:
max rate 5 °C/s, plausible range [-50, 300] °C, initial temperature 25 °C. -/
def demoSafetyMonitor : SafetyMonitor :=
  { thermal_monitors := [ThermalMonitor.new 5 (-50) 300 25]
    emergency_stop_active := false
    last_check_in := [0]
    task_deadlines := [1000000] }

/-- The demo monitor after a first healthy reading of 25 °C at t = 1 s. -/
def demoSafetyMonitor1 : SafetyMonitor :=
  demoSafetyMonitor.step (.checkThermalState 0 25 1000000)

/-- Witness for C4: feeding 25 °C at t = 1 s then 31 °C at t = 2 s trips the
thermal-runaway check (rate 6 °C/s > 5 °C/s) and sets the emergency stop,
and the flag is still set after a later unrelated operation. -/
theorem C4_estop_witness :
    ((demoSafetyMonitor1.step (.checkThermalState 0 31 2000000)).is_emergency_stop_active = true) ∧
    (((demoSafetyMonitor1.step (.checkThermalState 0 31 2000000)).step
        (.taskCheckIn 0 99)).is_emergency_stop_active = true) := by
  have h1 : (demoSafetyMonitor1.step (.checkThermalState 0 31 2000000)).is_emergency_stop_active = true :=
    (C4_estop_set_and_never_cleared demoSafetyMonitor1).2.2.2.1 0 31 2000000
      ⟨5, -50, 300, 25, 1000000⟩ (.ThermalRunaway 0 6) (by decide)
      (by simp [ThermalMonitor.check]; norm_num)
  exact ⟨h1,
    (C4_estop_set_and_never_cleared (demoSafetyMonitor1.step (.checkThermalState 0 31 2000000))).1
      (.taskCheckIn 0 99) h1⟩

/-- C10: `ThermalMonitor::check` leaves the stored state (`last_temp`,
`last_check_time`) unchanged whenever it returns an error, and updates it
exactly on the `Ok` path, so a subsequent check still compares against the
pre-error baseline. -/
theorem C10_check_updates_state_only_on_ok (m : ThermalMonitor) (heater_id : Nat)
    (temp : ℚ) (now : Nat) :
    (∀ e, (m.check heater_id temp now).1 = .error e → (m.check heater_id temp now).2 = m) ∧
    ((m.check heater_id temp now).1 = .ok () → (m.check heater_id temp now).2 =
      { m with last_temp := temp, last_check_time := now }) := by
  unfold ThermalMonitor.check
  dsimp only
  split_ifs with h1 h2 h3 <;>
    exact ⟨fun e he => (by first | rfl | cases he), fun hok => (by first | rfl | cases hok)⟩

/-- Witness for C10: a too-low reading leaves the monitor untouched, while
a healthy reading updates both stored fields. -/
theorem C10_check_witness :
    (ThermalMonitor.check ⟨5, -50, 300, 25, 0⟩ 0 (-100) 5).2 = ⟨5, -50, 300, 25, 0⟩ ∧
    (ThermalMonitor.check ⟨5, -50, 300, 25, 0⟩ 0 30 5).2 = ⟨5, -50, 300, 30, 5⟩ :=
  ⟨(C10_check_updates_state_only_on_ok ⟨5, -50, 300, 25, 0⟩ 0 (-100) 5).1
      (.TempTooLow 0 (-100)) (by decide),
   (C10_check_updates_state_only_on_ok ⟨5, -50, 300, 25, 0⟩ 0 30 5).2 (by decide)⟩

end RKlipp

namespace RKlipp

/-! ## Input shaping (crates/motion/src/profile.rs)

`recalculate_impulses` derives its decay factor
`k = expf(-zeta * pi / sqrtf(1 - zeta^2))` (and 0 for `zeta >= 1`) from the
damping ratio.  `expf` is transcendental, so the embedding takes `k` as an
explicit parameter; the theorems below hold for every `k ≥ 0`, which covers
the value the code computes (`expf` is positive, and the `zeta ≥ 1` branch
yields 0).  The damping ratio itself is not otherwise used in the impulse
table (the `v`/`w` locals of the `EI` arm are dead), so it does not appear
in the embedding. -/

/-- `ShaperType` of `profile.rs`. -/
inductive ShaperType where
  | None
  | ZV
  | MZV
  | EI
  | ZVD
  deriving DecidableEq, Repr

/-- `PressureAdvance` of `profile.rs`. -/
structure PressureAdvance where
  coefficient : ℚ
  smooth_time : ℚ
  deriving DecidableEq, Repr

/-- `InputShaper`: the cached impulse train `(time_offset, amplitude)`.
The Rust struct stores a fixed `[(f32, f32); 5]` array whose first
`num_impulses` entries are meaningful; `impulses` here is exactly that
prefix. -/
structure InputShaper where
  shaper_type : ShaperType
  frequency : ℚ
  impulses : List (ℚ × ℚ)
  num_impulses : Nat
  duration : ℚ
  deriving DecidableEq, Repr

/-- `InputShaper::recalculate_impulses` with the decay factor `k` passed
explicitly (see the section comment): each `match` arm writes the impulse
prefix and its count, then `duration` becomes the last offset. -/
def InputShaper.recalculate_impulses (s : InputShaper) (k : ℚ) : InputShaper :=
  if s.frequency ≤ 0 then
    { s with impulses := [], num_impulses := 0, duration := 0 }
  else
    let shaper_period := 1 / s.frequency
    let s2 :=
      match s.shaper_type with
      | .None => { s with impulses := [], num_impulses := 0 }
      | .ZV =>
        let a1 := 1 / (1 + k)
        let a2 := k * a1
        { s with impulses := [(0, a1), (1 / 2 * shaper_period, a2)], num_impulses := 2 }
      | .MZV =>
        let a1 := 1 / (1 + 2 * k + k * k)
        let a2 := 2 * k * a1
        let a3 := k * k * a1
        { s with impulses := [(0, a1), (1 / 2 * shaper_period, a2), (shaper_period, a3)]
                 num_impulses := 3 }
      | .EI =>
        let k2 := k * k
        let a1 := 1 / (1 + 3 * k + 3 * k2 + k2 * k)
        let a2 := 3 * k * a1
        let a3 := 3 * k2 * a1
        let a4 := k2 * k * a1
        { s with impulses := [(0, a1), (1 / 2 * shaper_period, a2), (shaper_period, a3),
                              (3 / 2 * shaper_period, a4)]
                 num_impulses := 4 }
      | .ZVD =>
        let k2 := k * k
        let a1 := 1 / (1 + 2 * k + k2)
        let a2 := 2 * k * a1
        let a3 := k2 * a1
        { s with impulses := [(0, a1), (1 / 2 * shaper_period, a2), (shaper_period, a3)]
                 num_impulses := 3 }
    if s2.num_impulses > 0 then
      { s2 with duration := ((s2.impulses.getD (s2.num_impulses - 1) (0, 0))).1 }
    else
      { s2 with duration := 0 }

/-- `InputShaper::new`: zeroed impulse table, recalculated when the natural
frequency is positive. -/
def InputShaper.new (shaper_type : ShaperType) (frequency : ℚ) (k : ℚ) : InputShaper :=
  let shaper : InputShaper :=
    { shaper_type := shaper_type, frequency := frequency, impulses := []
      num_impulses := 0, duration := 0 }
  if frequency > 0 then shaper.recalculate_impulses k else shaper

/-- Sum of the amplitudes of the cached impulse train. -/
def amplitudeSum (s : InputShaper) : ℚ :=
  (s.impulses.map Prod.snd).sum

end RKlipp

namespace RKlipp

/-- Counterexample for C6: for `ShaperType::None` the code sets
`num_impulses = 0` (an empty impulse train) rather than the single impulse
`(0, 1)` the claim describes, so the amplitude sum is 0, not within 1e-6 of
1.  Instantiated at 40 Hz and the stand-in decay factor `k = 1/2` (the
`None` arm never reads `k`, as the general theorem shows by quantifying
over it). -/
theorem C6_none_shaper_counterexample :
    amplitudeSum (InputShaper.new .None 40 (1 / 2)) = 0 ∧
      ¬ (amplitudeSum (InputShaper.new .None 40 (1 / 2)) - 1 ≥ -(1 / 1000000) ∧
         amplitudeSum (InputShaper.new .None 40 (1 / 2)) - 1 ≤ 1 / 1000000) := by
  constructor
  · rfl
  · intro h
    have := h.1
    norm_num [amplitudeSum, InputShaper.new, InputShaper.recalculate_impulses] at this

/-- C6 (amended): for every positive natural frequency and every decay
factor `k ≥ 0` (covering the `expf` value the code computes from any
damping ratio), the impulse amplitudes of the ZV, MZV, EI and ZVD shapers
sum exactly to 1 (in exact arithmetic, hence within 1e-6 in `f32`), while
`ShaperType::None` produces an empty impulse train whose amplitude sum
is 0. -/
theorem C6_amplitude_sums (ty : ShaperType) (frequency k : ℚ)
    (hf : 0 < frequency) (hk : 0 ≤ k) :
    (ty ≠ .None → amplitudeSum (InputShaper.new ty frequency k) = 1) ∧
    (ty = .None → amplitudeSum (InputShaper.new ty frequency k) = 0) := by
  have hnle : ¬ frequency ≤ 0 := not_le.mpr hf
  cases ty with
  | None =>
    refine ⟨fun h => absurd rfl h, fun _ => ?_⟩
    simp [InputShaper.new, InputShaper.recalculate_impulses, hf, hnle, amplitudeSum]
  | ZV =>
    refine ⟨fun _ => ?_, fun h => by cases h⟩
    have hd : (1 : ℚ) + k ≠ 0 := by positivity
    simp only [InputShaper.new, InputShaper.recalculate_impulses, if_pos hf, if_neg hnle]
    simp [amplitudeSum]
    field_simp
  | MZV =>
    refine ⟨fun _ => ?_, fun h => by cases h⟩
    have hd : (1 : ℚ) + 2 * k + k * k ≠ 0 := by positivity
    simp only [InputShaper.new, InputShaper.recalculate_impulses, if_pos hf, if_neg hnle]
    simp [amplitudeSum]
    field_simp
    ring
  | EI =>
    refine ⟨fun _ => ?_, fun h => by cases h⟩
    have hd : (1 : ℚ) + 3 * k + 3 * (k * k) + k * k * k ≠ 0 := by positivity
    simp only [InputShaper.new, InputShaper.recalculate_impulses, if_pos hf, if_neg hnle]
    simp [amplitudeSum]
    field_simp
    ring
  | ZVD =>
    refine ⟨fun _ => ?_, fun h => by cases h⟩
    have hd : (1 : ℚ) + 2 * k + k * k ≠ 0 := by positivity
    simp only [InputShaper.new, InputShaper.recalculate_impulses, if_pos hf, if_neg hnle]
    simp [amplitudeSum]
    field_simp
    ring

/-- Witness for C6 (amended) at a ZV shaper, 40 Hz, decay factor 1/2. -/
theorem C6_amplitude_sums_witness :
    amplitudeSum (InputShaper.new .ZV 40 (1 / 2)) = 1 :=
  (C6_amplitude_sums .ZV 40 (1 / 2) (by norm_num) (by norm_num)).1 (by decide)

end RKlipp

namespace RKlipp

/-! ## Motion planner (crates/motion/src/planner.rs)

`f32` values are `ℚ` and `sqrtf` is `ratSqrt` (see the file comment); the
queue capacities are the declared `heapless` sizes (`Deque<_, 8>` lookahead,
`spsc::Queue<_, 64>` finalised queue, `spsc::Queue<_, 256>` step producer;
`heapless` stores one element fewer than `N` in an `spsc::Queue<N>`, a
library detail noted where it matters). -/

/-- Floor square root of a natural number by bounded bisection.  The
bisection is structurally recursive on its fuel, so that, unlike the
well-founded `Nat.sqrt`, it evaluates by kernel reduction inside `decide`;
256 fuel steps suffice for every argument below `2 ^ 255`
(`sqrtBisect_spec`). -/
def sqrtBisect (fuel : Nat) (n lo hi : Nat) : Nat :=
  match fuel with
  | 0 => lo
  | fuel + 1 =>
    if hi ≤ lo + 1 then lo
    else
      let mid := (lo + hi) / 2
      if mid * mid ≤ n then sqrtBisect fuel n mid hi else sqrtBisect fuel n lo mid

/-- Kernel-reducible floor square root (agrees with `Nat.sqrt` below
`2 ^ 255`, by `sqrtBisect_spec` and uniqueness of the floor root). -/
def natSqrt (n : Nat) : Nat := sqrtBisect 256 n 0 (n + 1)

/-- The bisection keeps the invariant `lo ^ 2 ≤ n < hi ^ 2` while the fuel
bounds the remaining interval, so the result is the floor square root. -/
theorem sqrtBisect_spec :
    ∀ (fuel : Nat) (n lo hi : Nat), lo * lo ≤ n → n < hi * hi → hi ≤ lo + 2 ^ fuel →
      sqrtBisect fuel n lo hi * sqrtBisect fuel n lo hi ≤ n ∧
        n < (sqrtBisect fuel n lo hi + 1) * (sqrtBisect fuel n lo hi + 1) := by
  intro fuel
  induction fuel with
  | zero =>
    intro n lo hi hlo hhi hfuel
    simp only [sqrtBisect]
    refine ⟨hlo, ?_⟩
    have : hi ≤ lo + 1 := by simpa using hfuel
    calc n < hi * hi := hhi
    _ ≤ (lo + 1) * (lo + 1) := Nat.mul_le_mul this this
  | succ fuel ih =>
    intro n lo hi hlo hhi hfuel
    simp only [sqrtBisect]
    by_cases hnarrow : hi ≤ lo + 1
    · rw [if_pos hnarrow]
      exact ⟨hlo, Nat.lt_of_lt_of_le hhi (Nat.mul_le_mul hnarrow hnarrow)⟩
    · rw [if_neg hnarrow]
      by_cases hmid : ((lo + hi) / 2) * ((lo + hi) / 2) ≤ n
      · rw [if_pos hmid]
        exact ih n ((lo + hi) / 2) hi hmid hhi (by omega)
      · rw [if_neg hmid]
        exact ih n lo ((lo + hi) / 2) hlo (by omega) (by omega)

/-- `natSqrt` is the floor square root for every argument below `2 ^ 256`. -/
theorem natSqrt_isSqrt (n : Nat) (h : n < 2 ^ 256) :
    natSqrt n * natSqrt n ≤ n ∧ n < (natSqrt n + 1) * (natSqrt n + 1) :=
  sqrtBisect_spec 256 n 0 (n + 1) (by simp) (by nlinarith)
    (by simpa using Nat.succ_le_of_lt h)

/-- The floor root of the magnitude of an integer (`Int.sqrt` with the
kernel-reducible root; negative arguments give 0, as `Int.sqrt` does). -/
def intSqrt (z : Int) : Int := natSqrt z.toNat

/-- The planner's model of `sqrtf`: the exact rational square root when the
argument is a perfect square of a rational (every concrete input evaluated
in this file is), and the floor-root approximation
`mkRat (intSqrt num) (natSqrt den)` of Mathlib's `Rat.sqrt` otherwise.
The general theorems below never depend on its value at a non-square. -/
def ratSqrt (q : ℚ) : ℚ := mkRat (intSqrt q.num) (natSqrt q.den)

/-- `MAX_AXES` of `planner.rs`. -/
def MAX_AXES : Nat := 8

/-- `EXTRUDER_AXIS` of `planner.rs`. -/
def EXTRUDER_AXIS : Nat := 3

/-- `CLOCK_FREQ` of `planner.rs` (ticks per second). -/
def CLOCK_FREQ : ℚ := 100000000

/-- Two's-complement wrap of an `i32` value (`wrapping_add`/`wrapping_sub`). -/
def wrap32 (z : Int) : Int := (z + 2 ^ 31) % 2 ^ 32 - 2 ^ 31

/-- The Rust cast `x as u32` applied to an `i32`: two's-complement
reinterpretation (negative values become huge unsigned values). -/
def i32AsU32 (z : Int) : Nat := (z % 2 ^ 32).toNat

/-- The Rust saturating cast `q as u32` applied to an `f32`: clamp to
`[0, u32::MAX]`, truncating toward zero. -/
def f32AsU32 (q : ℚ) : Nat :=
  if q < 0 then 0 else min (q.num / (q.den : Int)).toNat (2 ^ 32 - 1)

/-- `StepCommand` of `crates/mcu-drivers/stepper.rs` (re-used by the
planner): step mask, direction mask, and the `u16` tick interval. -/
structure StepCommand where
  stepper_mask : Nat
  direction_mask : Nat
  interval_ticks : Nat
  deriving DecidableEq, Repr

/-- `StepCommand::new`. -/
def StepCommand.new (stepper_mask direction_mask interval_ticks : Nat) : StepCommand :=
  ⟨stepper_mask, direction_mask, interval_ticks⟩

/-- `PlannerError` of `crates/motion/src/error.rs`. -/
inductive PlannerError where
  | QueueFull
  | InvalidMove
  deriving DecidableEq, Repr

/-- `MoveSegment` of `planner.rs`: per-axis step deltas (8 axes), direction
mask, dominant-axis step count, and the S-curve profile data. -/
structure MoveSegment where
  steps : List Int
  direction_mask : Nat
  total_steps : Nat
  junction_deviation : ℚ
  distance : ℚ
  start_v : ℚ
  cruise_v : ℚ
  end_v : ℚ
  accel : ℚ
  jerk : ℚ
  t_j1 : ℚ
  t_a : ℚ
  t_j2 : ℚ
  t_c : ℚ
  t_j3 : ℚ
  t_d : ℚ
  t_j4 : ℚ
  pa : Option PressureAdvance
  shaper : Option InputShaper
  deriving DecidableEq, Repr

instance : Inhabited MoveSegment :=
  ⟨⟨[], 0, 0, 0, 0, 0, 0, 0, 0, 0, 0, 0, 0, 0, 0, 0, 0, none, none⟩⟩

/-- `MoveSegment::get_move_vector_mm`: the cartesian move vector in mm over
the first `MAX_AXES - 1 = 7` axes (the extruder axis 3 is nonetheless
included here, exactly as in the source, which only drops index 7). -/
def MoveSegment.get_move_vector_mm (s : MoveSegment) (steps_per_mm : List ℚ) : List ℚ :=
  (List.range (MAX_AXES - 1)).map
    (fun i => (s.steps.getD i 0 : ℚ) / steps_per_mm.getD i 0)

/-- Lookahead capacity: `Deque<MoveSegment, 8>`. -/
def LOOKAHEAD_CAP : Nat := 8

/-- Finalised-queue capacity: `spsc::Queue<MoveSegment, 64>` as declared
(the `heapless` ring actually stores at most 63). -/
def MOVE_QUEUE_CAP : Nat := 64

/-- Step-producer capacity: `spsc::Queue<StepCommand, 256>` as declared. -/
def PRODUCER_CAP : Nat := 256

/-- `MotionPlanner` of `planner.rs`. -/
structure MotionPlanner where
  move_queue : List MoveSegment
  lookahead_queue : List MoveSegment
  current_position : List Int
  steps_per_mm : List ℚ
  deriving DecidableEq, Repr

/-- `MotionPlanner::new`. -/
def MotionPlanner.new (steps_per_mm : List ℚ) : MotionPlanner :=
  ⟨[], [], List.replicate MAX_AXES 0, steps_per_mm⟩

/-- `MotionPlanner::recalculate_timing`: derive the seven phase durations
(and, for a triangular profile, the reduced cruise velocity) from the
segment's distance, velocities, acceleration and jerk. -/
def recalculate_timing (s : MoveSegment) : MoveSegment :=
  let accel_dist := (s.cruise_v * s.cruise_v - s.start_v * s.start_v) / (2 * s.accel)
  let decel_dist := (s.cruise_v * s.cruise_v - s.end_v * s.end_v) / (2 * s.accel)
  if accel_dist + decel_dist > s.distance then
    let cruise_v := ratSqrt ((2 * s.accel * s.distance + s.start_v * s.start_v +
      s.end_v * s.end_v) / 2)
    let accel_time := |cruise_v - s.start_v| / s.accel
    let decel_time := |cruise_v - s.end_v| / s.accel
    let t_j1 := min (accel_time / 2) (s.accel / s.jerk)
    let t_j3 := min (decel_time / 2) (s.accel / s.jerk)
    { s with cruise_v := cruise_v, t_c := 0, t_j1 := t_j1, t_a := accel_time - 2 * t_j1
             t_j2 := t_j1, t_j3 := t_j3, t_d := decel_time - 2 * t_j3, t_j4 := t_j3 }
  else
    let accel_time := |s.cruise_v - s.start_v| / s.accel
    let decel_time := |s.cruise_v - s.end_v| / s.accel
    let t_j1 := min (accel_time / 2) (s.accel / s.jerk)
    let t_j3 := min (decel_time / 2) (s.accel / s.jerk)
    { s with t_c := (s.distance - accel_dist - decel_dist) / s.cruise_v
             t_j1 := t_j1, t_a := accel_time - 2 * t_j1, t_j2 := t_j1
             t_j3 := t_j3, t_d := decel_time - 2 * t_j3, t_j4 := t_j3 }

/-- The body of `MotionPlanner::process_lookahead`, structurally recursive
on an explicit fuel so that it evaluates by kernel reduction; each loop
iteration pops exactly one lookahead entry, so the queue length at entry is
always enough fuel (`process_lookahead` below supplies it) and the zero
fuel base case is unreachable.  While at least two moves are buffered, the
junction velocity between the first two is computed, the first is finalised
into the move queue (a zero-length head is finalised as-is), and the
junction becomes the second move's start velocity.  A full move queue
surfaces `QueueFull`, with the already-popped segment dropped, exactly as
in the source. -/
def processLookaheadGo : Nat → MotionPlanner → MotionPlanner × Except PlannerError Unit
  | 0, p => (p, .ok ())
  | fuel + 1, p =>
    if 2 ≤ p.lookahead_queue.length then
      let seg1 := p.lookahead_queue.getD 0 default
      let seg2 := p.lookahead_queue.getD 1 default
      let v1 := seg1.get_move_vector_mm p.steps_per_mm
      let v2 := seg2.get_move_vector_mm p.steps_per_mm
      let v1_mag_sq := (v1.map (fun x => x * x)).sum
      let v2_mag_sq := (v2.map (fun x => x * x)).sum
      if v1_mag_sq < 1 / 10 ^ 9 ∨ v2_mag_sq < 1 / 10 ^ 9 then
        let seg := recalculate_timing seg1
        if p.move_queue.length = MOVE_QUEUE_CAP then
          ({ p with lookahead_queue := p.lookahead_queue.tail }, .error .QueueFull)
        else
          processLookaheadGo fuel
            { p with lookahead_queue := p.lookahead_queue.tail
                     move_queue := p.move_queue ++ [seg] }
      else
        let dot_product := ((v1.zip v2).map (fun x => x.1 * x.2)).sum
        let cos_theta := dot_product / ratSqrt (v1_mag_sq * v2_mag_sq)
        let min_accel := min seg1.accel seg2.accel
        let denominator := 1 - cos_theta
        let junction_v_sq :=
          if denominator > 1 / 10 ^ 6 then
            (2 * seg1.junction_deviation * min_accel) * |1 - cos_theta| /
              (ratSqrt v1_mag_sq * ratSqrt v2_mag_sq)
          else seg1.cruise_v * seg1.cruise_v
        let max_v := min seg1.cruise_v seg2.cruise_v
        let junction_v := min (ratSqrt junction_v_sq) max_v
        let seg1_final := recalculate_timing { seg1 with end_v := junction_v }
        let la2 := (p.lookahead_queue.tail).modifyHead
          (fun s2 => { s2 with start_v := junction_v })
        if p.move_queue.length = MOVE_QUEUE_CAP then
          ({ p with lookahead_queue := la2 }, .error .QueueFull)
        else
          processLookaheadGo fuel
            { p with lookahead_queue := la2, move_queue := p.move_queue ++ [seg1_final] }
    else (p, .ok ())

/-- `MotionPlanner::process_lookahead` (see `processLookaheadGo`). -/
def MotionPlanner.process_lookahead (p : MotionPlanner) :
    MotionPlanner × Except PlannerError Unit :=
  processLookaheadGo p.lookahead_queue.length p

end RKlipp

namespace RKlipp

/-- The per-axis deltas of `plan_move`:
`target_pos[i].wrapping_sub(self.current_position[i])`. -/
def planSteps (p : MotionPlanner) (target_pos : List Int) : List Int :=
  (List.range MAX_AXES).map
    (fun i => wrap32 (target_pos.getD i 0 - p.current_position.getD i 0))

/-- The direction mask of `plan_move`: bit `i` set when `steps[i] > 0`. -/
def planDirectionMask (steps : List Int) : Nat :=
  (List.range MAX_AXES).foldl
    (fun m i => if steps.getD i 0 > 0 then m ||| (1 <<< i) else m) 0

/-- The accumulated squared cartesian distance of `plan_move` (the extruder
axis contributes nothing). -/
def planMoveDistSq (p : MotionPlanner) (steps : List Int) : ℚ :=
  ((List.range MAX_AXES).map
    (fun i => if i ≠ EXTRUDER_AXIS then
        ((steps.getD i 0 : ℚ) / p.steps_per_mm.getD i 0) *
          ((steps.getD i 0 : ℚ) / p.steps_per_mm.getD i 0)
      else 0)).sum

/-- The dominant-axis step count of `plan_move`:
`steps[0..EXTRUDER_AXIS].iter().map(|s| s.abs() as u32).max().unwrap_or(0)`. -/
def planTotalSteps (steps : List Int) : Nat :=
  (((steps.take EXTRUDER_AXIS).map Int.natAbs)).foldl max 0

/-- `MotionPlanner::plan_move`: compute per-axis deltas (`wrapping_sub`),
the direction mask, the cartesian distance (extruder axis excluded) and the
dominant-axis step count over axes 0..2; silently accept extruder-only and
sub-micron moves; otherwise push the segment into the lookahead deque
(`QueueFull` when it is full), commit the new position, and run the
lookahead pass. -/
def MotionPlanner.plan_move (p : MotionPlanner) (target_pos : List Int)
    (velocity accel jerk junction_deviation : ℚ) :
    MotionPlanner × Except PlannerError Unit :=
  let steps := planSteps p target_pos
  let direction_mask := planDirectionMask steps
  let move_dist_sq := planMoveDistSq p steps
  let distance := ratSqrt move_dist_sq
  let total_steps := planTotalSteps steps
  if total_steps = 0 ∧ steps.getD EXTRUDER_AXIS 0 ≠ 0 then (p, .ok ())
  else if distance < 1 / 10 ^ 6 then (p, .ok ())
  else
    let segment : MoveSegment :=
      { steps := steps, direction_mask := direction_mask, total_steps := total_steps
        junction_deviation := junction_deviation, distance := distance
        start_v := 0, cruise_v := velocity, end_v := 0, accel := accel, jerk := jerk
        t_j1 := 0, t_a := 0, t_j2 := 0, t_c := 0, t_j3 := 0, t_d := 0, t_j4 := 0
        pa := none, shaper := none }
    if p.lookahead_queue.length = LOOKAHEAD_CAP then (p, .error .QueueFull)
    else
      let p2 := { p with lookahead_queue := p.lookahead_queue ++ [segment]
                         current_position := target_pos }
      p2.process_lookahead

/-- The drain loop of `MotionPlanner::finalize`, structurally recursive on
a fuel that the wrapper sets to the lookahead length (each iteration pops
one entry, so the zero fuel base case is unreachable): pop every remaining
lookahead entry, recalculate its timing and enqueue it; a full move queue
surfaces `QueueFull` (the popped segment is dropped). -/
def finalizeDrainGo : Nat → MotionPlanner → MotionPlanner × Except PlannerError Unit
  | 0, p => (p, .ok ())
  | fuel + 1, p =>
    match p.lookahead_queue with
    | [] => (p, .ok ())
    | seg :: rest =>
      let seg2 := recalculate_timing seg
      if p.move_queue.length = MOVE_QUEUE_CAP then
        ({ p with lookahead_queue := rest }, .error .QueueFull)
      else
        finalizeDrainGo fuel
          { p with lookahead_queue := rest, move_queue := p.move_queue ++ [seg2] }

/-- The drain loop of `MotionPlanner::finalize` (see `finalizeDrainGo`). -/
def finalizeDrain (p : MotionPlanner) : MotionPlanner × Except PlannerError Unit :=
  finalizeDrainGo p.lookahead_queue.length p

/-- `MotionPlanner::finalize`: one lookahead pass, then drain. -/
def MotionPlanner.finalize (p : MotionPlanner) : MotionPlanner × Except PlannerError Unit :=
  let (p2, r) := p.process_lookahead
  match r with
  | .error e => (p2, .error e)
  | .ok _ => finalizeDrain p2

/-- `MotionPlanner::get_velocity_and_accel`: piecewise closed-form velocity
and acceleration of the seven-phase S-curve at time `t`. -/
def get_velocity_and_accel (s : MoveSegment) (t : ℚ) : ℚ × ℚ :=
  let j := s.jerk
  let t1 := s.t_j1
  let t2 := t1 + s.t_a
  let t3 := t2 + s.t_j2
  let t4 := t3 + s.t_c
  let t5 := t4 + s.t_j3
  let t6 := t5 + s.t_d
  if t < t1 then (s.start_v + 1 / 2 * j * t * t, j * t)
  else if t < t2 then (s.start_v + 1 / 2 * j * t1 * t1 + s.accel * (t - t1), s.accel)
  else if t < t3 then (s.cruise_v - 1 / 2 * j * (t3 - t) * (t3 - t), j * (t3 - t))
  else if t < t4 then (s.cruise_v, 0)
  else if t < t5 then
    let dt := t - t4
    (s.cruise_v - 1 / 2 * j * dt * dt, -j * dt)
  else if t < t6 then
    let dt := t - t5
    (s.cruise_v - 1 / 2 * j * s.t_j3 * s.t_j3 - s.accel * dt, -s.accel)
  else
    let dt := t - t6
    (s.end_v + 1 / 2 * j * (s.t_j4 - dt) * (s.t_j4 - dt), -j * (s.t_j4 - dt))

/-- `MotionPlanner::bresenham_step`: one Bresenham pass over the non-
extruder axes.  Faithfully reproduces the source comparison
`(errors[i] * 2) as u32 >= dominant_steps`, in which a negative error term
is reinterpreted as a huge unsigned value (`i32AsU32`). -/
def bresenham_step (errors : List Int) (steps : List Int) (dominant_steps : Nat) :
    List Int × Nat :=
  (List.range MAX_AXES).foldl
    (fun acc i =>
      if i = EXTRUDER_AXIS then acc
      else
        let e := acc.1.getD i 0 + ((steps.getD i 0).natAbs : Int)
        if i32AsU32 (e * 2) ≥ dominant_steps then
          (acc.1.set i (e - (dominant_steps : Int)), acc.2 ||| (1 <<< i))
        else (acc.1.set i e, acc.2))
    (errors, 0)

end RKlipp

namespace RKlipp

/-- `ScheduledStep` of `planner.rs`: an absolute-tick shaped step event
(the binary heap pops events in ascending `time`). -/
structure ScheduledStep where
  time : Nat
  stepper_mask : Nat
  deriving DecidableEq, Repr

/-- Heap capacity: `BinaryHeap<ScheduledStep, Min, 64>`. -/
def SHAPER_HEAP_CAP : Nat := 64

/-- Pop a minimum-time event from the heap (modelled as an unordered list;
ties are broken by the first minimal entry, the one property the claims
rely on being that pops come in ascending `time`). -/
def heapPopMin : List ScheduledStep → Option (ScheduledStep × List ScheduledStep)
  | [] => none
  | x :: xs =>
    match heapPopMin xs with
    | none => some (x, [])
    | some (m, rest) => if x.time ≤ m.time then some (x, xs) else some (m, x :: rest)

/-- `u32::saturating_add`. -/
def u32SatAdd (a b : Nat) : Nat := min (a + b) (2 ^ 32 - 1)

/-- The per-step interval computation shared by both `generate_steps`
paths: `(CLOCK_FREQ / v * distance / dominant) as u32` for positive `v`,
`u32::MAX` otherwise. -/
def stepInterval (seg : MoveSegment) (dominant : Nat) (v : ℚ) : Nat :=
  if v > 0 then f32AsU32 (CLOCK_FREQ / v * seg.distance / (dominant : ℚ)) else 2 ^ 32 - 1

/-- The standard (unshaped) loop of `MotionPlanner::generate_steps` over
step indices `n`, `counted` of them still to go: evaluate the S-curve,
run one Bresenham pass, and enqueue one `StepCommand` per dominant-axis
step (`u8`/`u16` casts made explicit). -/
def standardStepLoop (seg : MoveSegment) (total_time : ℚ) (dominant : Nat)
    (n : Nat) (counted : Nat) (errors : List Int) (producer : List StepCommand) :
    List StepCommand × Except Unit Unit :=
  match counted with
  | 0 => (producer, .ok ())
  | counted2 + 1 =>
    let t := ((n : ℚ) / (dominant : ℚ)) * total_time
    let va := get_velocity_and_accel seg t
    let interval := stepInterval seg dominant va.1
    let bres := bresenham_step errors seg.steps dominant
    if producer.length = PRODUCER_CAP then (producer, .error ())
    else
      standardStepLoop seg total_time dominant (n + 1) counted2 bres.1
        (producer ++ [StepCommand.new (bres.2 % 256) seg.direction_mask (interval % 2 ^ 16)])

/-- The shaping loop of `generate_steps`: per nominal step, schedule one
event per shaper impulse at `current_time + offset * CLOCK_FREQ` into the
bounded heap. -/
def shapedScheduleLoop (seg : MoveSegment) (shaper : InputShaper) (total_time : ℚ)
    (dominant : Nat) (n : Nat) (counted : Nat) (errors : List Int)
    (last_time_ticks : Nat) (heap : List ScheduledStep) :
    Except Unit (List ScheduledStep) :=
  match counted with
  | 0 => .ok heap
  | counted2 + 1 =>
    let t := ((n : ℚ) / (dominant : ℚ)) * total_time
    let va := get_velocity_and_accel seg t
    let interval := stepInterval seg dominant va.1
    let current_time_ticks := u32SatAdd last_time_ticks interval
    let bres := bresenham_step errors seg.steps dominant
    let pushes := (shaper.impulses.take shaper.num_impulses).map
      (fun imp => ScheduledStep.mk (u32SatAdd current_time_ticks (f32AsU32 (imp.1 * CLOCK_FREQ)))
        (bres.2 % 256))
    if heap.length + pushes.length > SHAPER_HEAP_CAP then .error ()
    else
      shapedScheduleLoop seg shaper total_time dominant (n + 1) counted2 bres.1
        current_time_ticks (heap ++ pushes)

/-- Popping the heap strictly shrinks it. -/
theorem heapPopMin_length :
    ∀ {heap : List ScheduledStep} {s : ScheduledStep} {rest : List ScheduledStep},
      heapPopMin heap = some (s, rest) → rest.length < heap.length := by
  intro heap
  induction heap with
  | nil => intro s rest h; simp [heapPopMin] at h
  | cons x xs ih =>
    intro s rest h
    simp only [heapPopMin] at h
    cases hxs : heapPopMin xs with
    | none =>
      rw [hxs] at h
      simp only [] at h
      cases h
      simp
    | some mr =>
      obtain ⟨m, r2⟩ := mr
      rw [hxs] at h
      simp only [] at h
      by_cases hle : x.time ≤ m.time
      · rw [if_pos hle] at h
        cases h
        simp
      · rw [if_neg hle] at h
        cases h
        have := ih hxs
        simp
        omega

/-- The heap-draining loop of `generate_steps`: emit commands at the deltas
between successive shaped event times. -/
def shapedDrainLoop (direction_mask : Nat) (heap : List ScheduledStep) (prev_time : Nat)
    (producer : List StepCommand) : List StepCommand × Except Unit Unit :=
  match hpop : heapPopMin heap with
  | none => (producer, .ok ())
  | some (step, heap2) =>
    let interval := step.time - prev_time
    if producer.length = PRODUCER_CAP then (producer, .error ())
    else
      shapedDrainLoop direction_mask heap2 step.time
        (producer ++ [StepCommand.new step.stepper_mask direction_mask (interval % 2 ^ 16)])
  termination_by heap.length
  decreasing_by exact heapPopMin_length hpop

/-- `MotionPlanner::generate_steps`: dequeue the next finalised segment and
expand it into `StepCommand`s (standard or shaped path); an empty queue is
the `Err(())` of the source, a zero total time consumes the segment without
emitting steps. -/
def MotionPlanner.generate_steps (p : MotionPlanner) (producer : List StepCommand) :
    MotionPlanner × List StepCommand × Except Unit Unit :=
  match p.move_queue with
  | [] => (p, producer, .error ())
  | segment :: restq =>
    let p2 := { p with move_queue := restq }
    let dominant := segment.total_steps
    let total_time := segment.t_j1 + segment.t_a + segment.t_j2 + segment.t_c +
      segment.t_j3 + segment.t_d + segment.t_j4
    if total_time ≤ 0 then (p2, producer, .ok ())
    else
      match segment.shaper with
      | some shaper =>
        match shapedScheduleLoop segment shaper total_time dominant 1 dominant
            (List.replicate MAX_AXES 0) 0 [] with
        | .error _ => (p2, producer, .error ())
        | .ok heap =>
          let out := shapedDrainLoop segment.direction_mask heap 0 producer
          (p2, out.1, out.2)
      | none =>
        let out := standardStepLoop segment total_time dominant 1 dominant
          (List.replicate MAX_AXES 0) producer
        (p2, out.1, out.2)

/-! ## ISR stepper controller (crates/mcu-drivers/stepper.rs)

The pipelined interrupt handler dequeues each `StepCommand` exactly once
and, off the critical path, updates the per-axis position counters through
`update_positions`; the observable position state after a drained run is
the fold of `update_positions` over the executed commands in queue order. -/

/-- `StepperController::update_positions` for an `N`-axis controller:
for each bit set in `stepper_mask`, move the axis by plus or minus one
(`wrapping_add`/`wrapping_sub`) according to `direction_mask`. -/
def update_positions (positions : List Int) (stepper_mask direction_mask : Nat) :
    List Int :=
  (List.range positions.length).foldl
    (fun pos i =>
      if (stepper_mask >>> i) &&& 1 ≠ 0 then
        if (direction_mask >>> i) &&& 1 ≠ 0 then pos.set i (wrap32 (pos.getD i 0 + 1))
        else pos.set i (wrap32 (pos.getD i 0 - 1))
      else pos)
    positions

/-- Execute a queue of step commands through the ISR position tracking:
each `on_timer_interrupt` executes one pre-staged command and applies
`update_positions` with its masks. -/
def execCommands (positions : List Int) (commands : List StepCommand) : List Int :=
  commands.foldl (fun pos cmd => update_positions pos cmd.stepper_mask cmd.direction_mask)
    positions

end RKlipp

namespace RKlipp

/-- The C1 failing input: plan a single move of 10 X steps and 1 Y step
(steps/mm = 1, v = 1, a = 1, j = 2, jd = 0.01) from the origin. -/
def c1Planned : MotionPlanner × Except PlannerError Unit :=
  (MotionPlanner.new (List.replicate 8 1)).plan_move
    [10, 1, 0, 0, 0, 0, 0, 0] 1 1 2 (1 / 100)

/-- The C1 planner after `finalize`. -/
def c1Finalized : MotionPlanner × Except PlannerError Unit := c1Planned.1.finalize

/-- The C1 step expansion: `generate_steps` into an empty producer. -/
def c1Generated : MotionPlanner × List StepCommand × Except Unit Unit :=
  c1Finalized.1.generate_steps []

/-- The per-axis ISR positions after executing every C1 step command. -/
def c1Positions : List Int := execCommands (List.replicate 8 0) c1Generated.2.1

set_option maxRecDepth 100000 in
unseal Rat.add Rat.mul Rat.sub Rat.inv in
/-- C1: full-pipeline evaluation at the failing input.  Planning a single
move of 10 X steps and 1 Y step (steps/mm = 1, v = 1, a = 1, j = 2,
jd = 0.01) from the origin, finalising, expanding and executing every
generated `StepCommand` leaves the Y axis at position 6 although the
planned Y delta of the dequeued segment is 1: after the Y Bresenham error
term first goes negative (n = 5 of 10), the source comparison
`(errors[i] * 2) as u32 >= dominant_steps` reinterprets it as a huge
unsigned value, so the axis pulses on every remaining step. -/
theorem C1_bresenham_cast_loses_axis_delta :
    c1Planned.2 = .ok () ∧ c1Finalized.2 = .ok () ∧ c1Generated.2.2 = .ok () ∧
      (c1Finalized.1.move_queue.headD default).steps.getD 1 0 = 1 ∧
      c1Positions = [10, 6, 0, 0, 0, 0, 0, 0] ∧
      c1Positions.getD 1 0 ≠ (c1Finalized.1.move_queue.headD default).steps.getD 1 0 := by
  decide

end RKlipp

namespace RKlipp

/-- The undrained `plan_move` stress trace of `stress_tests.rs`
(`test_queue_full_error`), with unit steps/mm and dyadic kinematic limits
so that every `f32` computation along the trace is exact: 100 successive
single-axis targets, never calling `generate_steps`. -/
def queueStressTrace : MotionPlanner × List (Except PlannerError Unit) :=
  (List.range 100).foldl
    (fun st k =>
      let r := st.1.plan_move [(k : Int) + 1, 0, 0, 0, 0, 0, 0, 0] 1 1 2 (1 / 100)
      (r.1, st.2 ++ [r.2]))
    (MotionPlanner.new (List.replicate 8 1), [])

set_option maxRecDepth 100000 in
unseal Rat.add Rat.mul Rat.sub Rat.inv in
/-- C3: evaluation of the queue-overflow scenario.  With the declared
capacities (8-slot lookahead deque + 64-slot finalised queue = the 72 slots
of the claim and of the repository's own `test_queue_full_error`), 100
undrained `plan_move` calls succeed only 65 times: `process_lookahead`
eagerly drains every planned segment into the finalised queue, so call 66
(and every later call) fails with `QueueFull` while the lookahead still has
seven free slots, and the popped segment of each failing call is dropped.
The first 72 calls were expected to succeed; call 66 already fails. -/
theorem C3_overflow_at_66_not_72 :
    (queueStressTrace.2.take 65).all (fun r => r = .ok ()) = true ∧
      (queueStressTrace.2.drop 65).all (fun r => r = .error .QueueFull) = true ∧
      queueStressTrace.2.length = 100 ∧
      queueStressTrace.1.move_queue.length = 64 ∧
      queueStressTrace.1.lookahead_queue.length = 1 := by
  decide

end RKlipp

namespace RKlipp

unseal Rat.add Rat.mul Rat.sub Rat.inv in
/-- Counterexample for C7: two consecutive unit moves in exactly opposite
directions (1 mm out along X and back, steps/mm = 1, cruise 1 mm/s,
accel 2 mm/s², jerk 2, junction deviation 0.5 mm).  The junction velocity
formula gives `v_j² = 2·jd·a·|1-cosθ| / (‖v1‖‖v2‖) = 4·jd·a = 4` at
`cosθ = -1`, so the first move's end velocity is capped at the cruise
velocity, 1 mm/s — three orders of magnitude above the claimed
1e-3 mm/s bound. -/
theorem C7_reversal_counterexample :
    let r1 := (MotionPlanner.new (List.replicate 8 1)).plan_move
      [1, 0, 0, 0, 0, 0, 0, 0] 1 2 2 (1 / 2)
    let r2 := r1.1.plan_move [0, 0, 0, 0, 0, 0, 0, 0] 1 2 2 (1 / 2)
    r1.2 = .ok () ∧ r2.2 = .ok () ∧
      (r2.1.move_queue.headD default).end_v = 1 ∧
      ¬ ((r2.1.move_queue.headD default).end_v ≤ 1 / 1000) := by
  decide

end RKlipp

namespace RKlipp

/-- `processLookaheadGo` only ever fails with `QueueFull`. -/
theorem processLookaheadGo_no_invalid (fuel : Nat) :
    ∀ p : MotionPlanner, (processLookaheadGo fuel p).2 ≠ .error .InvalidMove := by
  induction fuel with
  | zero => intro p; simp [processLookaheadGo]
  | succ fuel ih =>
    intro p
    simp only [processLookaheadGo]
    split
    · split
      · split
        · simp
        · exact ih _
      · split
        · simp
        · exact ih _
    · simp

unseal Rat.add Rat.mul Rat.sub Rat.inv in
/-- Counterexample for C8: with steps/mm = 10^7, a one-step X move spans
10^-7 mm < 1e-6 mm and has no extruder steps, yet `plan_move` returns
`Ok(())` (silently dropping the move, planner state unchanged) instead of
the claimed `InvalidMove`. -/
theorem C8_tiny_move_counterexample :
    ratSqrt (planMoveDistSq (MotionPlanner.new (List.replicate 8 (10 ^ 7)))
        (planSteps (MotionPlanner.new (List.replicate 8 (10 ^ 7)))
          [1, 0, 0, 0, 0, 0, 0, 0])) < 1 / 10 ^ 6 ∧
      (MotionPlanner.new (List.replicate 8 (10 ^ 7))).plan_move
          [1, 0, 0, 0, 0, 0, 0, 0] 1 1 1 (1 / 100) =
        (MotionPlanner.new (List.replicate 8 (10 ^ 7)), .ok ()) := by
  decide

/-- C8 (amended): `plan_move` never returns `InvalidMove` (its only error
is `QueueFull`; the source contains no finiteness check, and non-finite
`f32` inputs have no counterpart in the exact rational embedding), and a
move whose cartesian distance is below 1e-6 mm is silently dropped: the
call returns `Ok(())` and leaves the planner unchanged.  (An extruder-only
move is likewise silently dropped, through the first early return.) -/
theorem C8_plan_move_silently_drops (p : MotionPlanner) (target : List Int)
    (velocity accel jerk junction_deviation : ℚ) :
    ((p.plan_move target velocity accel jerk junction_deviation).2 ≠ .error .InvalidMove) ∧
      (ratSqrt (planMoveDistSq p (planSteps p target)) < 1 / 10 ^ 6 →
        p.plan_move target velocity accel jerk junction_deviation = (p, .ok ())) := by
  constructor
  · simp only [MotionPlanner.plan_move]
    split
    · simp
    · split
      · simp
      · split
        · simp
        · exact processLookaheadGo_no_invalid _ _
  · intro hsmall
    simp only [MotionPlanner.plan_move, if_pos hsmall]
    split <;> rfl

unseal Rat.add Rat.mul Rat.sub Rat.inv in
/-- Witness for C8 (amended) at the sub-micron move of the counterexample
configuration (target one step of 10^-7 mm). -/
theorem C8_plan_move_silently_drops_witness :
    (MotionPlanner.new (List.replicate 8 (10 ^ 7))).plan_move
        [1, 0, 0, 0, 0, 0, 0, 0] 2 3 4 (1 / 100) =
      (MotionPlanner.new (List.replicate 8 (10 ^ 7)), .ok ()) :=
  (C8_plan_move_silently_drops (MotionPlanner.new (List.replicate 8 (10 ^ 7)))
      [1, 0, 0, 0, 0, 0, 0, 0] 2 3 4 (1 / 100)).2 (by decide)

end RKlipp

namespace RKlipp

/-- `recalculate_timing` never changes a segment's end velocity. -/
theorem recalculate_timing_end_v (s : MoveSegment) :
    (recalculate_timing s).end_v = s.end_v := by
  rw [recalculate_timing]
  split_ifs <;> rfl

/-- `ratSqrt 1 = 1` (used to evaluate unit move vectors). -/
theorem ratSqrt_one : ratSqrt 1 = 1 := rfl

/-- The first segment of the reversal pair of C7: one step (1 mm) out
along X at cruise velocity `v`, acceleration `a`, jerk `a`, junction
deviation `jd`, as `plan_move` builds it. -/
def seg1C7 (jd a v : ℚ) : MoveSegment :=
  { steps := [1, 0, 0, 0, 0, 0, 0, 0], direction_mask := 1, total_steps := 1
    junction_deviation := jd, distance := 1, start_v := 0, cruise_v := v, end_v := 0
    accel := a, jerk := a, t_j1 := 0, t_a := 0, t_j2 := 0, t_c := 0, t_j3 := 0
    t_d := 0, t_j4 := 0, pa := none, shaper := none }

/-- The second segment of the reversal pair: the exactly opposite move. -/
def seg2C7 (jd a v : ℚ) : MoveSegment :=
  { steps := [-1, 0, 0, 0, 0, 0, 0, 0], direction_mask := 0, total_steps := 1
    junction_deviation := jd, distance := 1, start_v := 0, cruise_v := v, end_v := 0
    accel := a, jerk := a, t_j1 := 0, t_a := 0, t_j2 := 0, t_c := 0, t_j3 := 0
    t_d := 0, t_j4 := 0, pa := none, shaper := none }

/-- The planner state after the first reversal move is planned. -/
def plannerC7a (jd a v : ℚ) : MotionPlanner :=
  { move_queue := [], lookahead_queue := [seg1C7 jd a v]
    current_position := [1, 0, 0, 0, 0, 0, 0, 0]
    steps_per_mm := List.replicate 8 1 }

/-- The planner state as the second reversal move enters the lookahead. -/
def plannerC7 (jd a v : ℚ) : MotionPlanner :=
  { move_queue := [], lookahead_queue := [seg1C7 jd a v, seg2C7 jd a v]
    current_position := [0, 0, 0, 0, 0, 0, 0, 0]
    steps_per_mm := List.replicate 8 1 }

set_option maxRecDepth 100000 in
unseal Rat.add Rat.mul Rat.sub Rat.inv in
/-- Lookahead processing of the reversal pair: at `cos θ = -1` the junction
velocity is `min (sqrt (4 jd a)) v`, so whenever the cruise velocity is at
most `sqrt (4 jd a)` the incoming move's end velocity is `v` itself. -/
theorem processLookaheadGo_reversal (jd a v : ℚ) (hcap : v ≤ ratSqrt (4 * jd * a)) :
    ((processLookaheadGo 2 (plannerC7 jd a v)).1.move_queue.headD default).end_v = v := by
  simp only [processLookaheadGo]
  norm_num [plannerC7, seg1C7, seg2C7, MoveSegment.get_move_vector_mm, MAX_AXES,
    List.range_succ, ratSqrt_one, recalculate_timing_end_v, MOVE_QUEUE_CAP]
  convert hcap using 2
  ring

set_option maxRecDepth 100000 in
set_option maxHeartbeats 8000000 in
unseal Rat.add Rat.mul Rat.sub Rat.inv in
/-- The out-and-back `plan_move` pair lands the lookahead pass on
`plannerC7`: a pure routing fact, every branch condition along the way
being concrete. -/
theorem plan_move_reversal_route (jd a v : ℚ) :
    (((MotionPlanner.new (List.replicate 8 1)).plan_move
        [1, 0, 0, 0, 0, 0, 0, 0] v a a jd).1.plan_move
          [0, 0, 0, 0, 0, 0, 0, 0] v a a jd) =
      processLookaheadGo 2 (plannerC7 jd a v) := by
  norm_num [MotionPlanner.plan_move, MotionPlanner.new, MotionPlanner.process_lookahead,
    planSteps, planDirectionMask, planMoveDistSq, planTotalSteps, wrap32,
    MAX_AXES, EXTRUDER_AXIS, LOOKAHEAD_CAP, List.range_succ, ratSqrt_one,
    plannerC7, plannerC7a, seg1C7, seg2C7, processLookaheadGo,
    MoveSegment.get_move_vector_mm, recalculate_timing_end_v, MOVE_QUEUE_CAP]

set_option maxRecDepth 100000 in
set_option maxHeartbeats 1000000 in
unseal Rat.add Rat.mul Rat.sub Rat.inv in
/-- C7 (amended): for two consecutive `plan_move` moves in exactly opposite
directions (`cos θ = -1`, unit 1 mm legs), the incoming move's end velocity
is `min (sqrt (2·jd·min(a₁,a₂)·|1-cos θ| / (‖v1‖‖v2‖))) (min cruise)` =
`min (sqrt (4·jd·a)) v`; whenever the cruise velocity `v` is at most
`sqrt (4·jd·a)` it equals `v` itself and in particular exceeds the claimed
1e-3 mm/s bound for any cruise above 1e-3 — the junction velocity does not
tend to 0 at a reversal. -/
theorem C7_reversal_junction_velocity (jd a v : ℚ)
    (hv : 1 / 1000 < v) (hcap : v ≤ ratSqrt (4 * jd * a)) :
    ((((MotionPlanner.new (List.replicate 8 1)).plan_move
          [1, 0, 0, 0, 0, 0, 0, 0] v a a jd).1.plan_move
            [0, 0, 0, 0, 0, 0, 0, 0] v a a jd).1.move_queue.headD default).end_v = v ∧
      ¬ (((((MotionPlanner.new (List.replicate 8 1)).plan_move
          [1, 0, 0, 0, 0, 0, 0, 0] v a a jd).1.plan_move
            [0, 0, 0, 0, 0, 0, 0, 0] v a a jd).1.move_queue.headD default).end_v ≤ 1 / 1000) := by
  rw [plan_move_reversal_route, processLookaheadGo_reversal jd a v hcap]
  exact ⟨rfl, not_le.mpr hv⟩

unseal Rat.add Rat.mul Rat.sub Rat.inv in
/-- Witness for C7 (amended) at `jd = 1/2`, `a = 2`, `v = 1`
(`sqrt (4·jd·a) = 2 ≥ 1`): the reversal junction velocity is 1 mm/s. -/
theorem C7_reversal_junction_velocity_witness :
    ((((MotionPlanner.new (List.replicate 8 1)).plan_move
          [1, 0, 0, 0, 0, 0, 0, 0] 1 2 2 (1 / 2)).1.plan_move
            [0, 0, 0, 0, 0, 0, 0, 0] 1 2 2 (1 / 2)).1.move_queue.headD default).end_v = 1 :=
  (C7_reversal_junction_velocity (1 / 2) 2 1 (by decide) (by decide)).1

end RKlipp
